import Mathlib

/-!
# Verification of the conjugated-metabolome query layer

Shallow embedding of the query/ETL layer of the streamlit-conjugated-metabolome
repository (`bin/web/main/sql_utils.py`, `bin/web/main/utils.py`,
`bin/web/main/delta_mass_browser.py`, `bin/web/prepare/sql_files.py`).

Numbers: Python/SQLite floats are modelled as exact rationals (ℚ), except where
a claim turns on IEEE-754 double behaviour, in which case the individual
double roundings are modelled explicitly as nearest-even roundings to an
explicit binary ulp.  Python `None`/pandas `NaN` on text fields is `Option`.
-/
unseal Rat.add Rat.mul Rat.sub Rat.inv Rat.ofScientific

namespace ConjMet

/-- Python `round` to an integer: round-half-to-even (banker's rounding),
exactly the semantics of `round(x)` for a value `x` modelled as an exact
rational. -/
def pythonRound (q : ℚ) : ℤ :=
  let f : ℤ := Rat.floor q
  let r : ℚ := q - f
  if r < 1/2 then f
  else if 1/2 < r then f + 1
  else if f % 2 = 0 then f else f + 1

/-- Python `round(x, 2)`: round to 2 decimal places, half to even. -/
def round2 (q : ℚ) : ℚ := (pythonRound (q * 100) : ℚ) / 100

/-- The fixed water-loss constant 18.0106 Da used throughout the source. -/
def waterLoss : ℚ := 180106 / 10000

/-! ## `_get_ref_usi` (sql_utils.py lines 112–120, identically utils.py 97–105)

```python
def _get_ref_usi(row, ref_col="ref_1"):
    if pd.isna(row[f"{ref_col}_id"]):
        return None
    if row[f"{ref_col}_db"] == "gnps":
        return "mzspec:GNPS:GNPS-LIBRARY:accession:CCMSLIB000" + row[f"{ref_col}_id"]
    elif row[f"{ref_col}_db"] == "mona":
        return "mzspec:MASSBANK::accession:" + row[f"{ref_col}_id"]
    else:
        return "No valid USI"
```
The row fields involved are the accession (`{ref_col}_id`, nullable) and the
source-library value (`{ref_col}_db`); we take them as the two arguments. -/
def get_ref_usi (refId : Option String) (refDb : String) : Option String :=
  match refId with
  | none => none
  | some acc =>
    if refDb = "gnps" then some ("mzspec:GNPS:GNPS-LIBRARY:accession:CCMSLIB000" ++ acc)
    else if refDb = "mona" then some ("mzspec:MASSBANK::accession:" ++ acc)
    else some "No valid USI"

/-! ## Query-spectrum identifier composition and decomposition
(`sql_files.py` lines 8–33, `sql_utils.py` lines 321–325)

Python strings are modelled as `List Char`, so that `str.split(':')` can be
reasoned about.

```python
def optimize_qry_id(qry_id):
    parts = qry_id.split(':')
    if len(parts) == 4 and parts[2] == "scan":
        dataset = parts[0]
        file_name = parts[1]
        scan_id = int(parts[3])
        return dataset, file_name, scan_id
    else:
        raise ValueError(...)

def decompress_qry_id(dataset, file_name, scan_id):
    return f"{dataset}:{file_name}:scan:{scan_id}"
```
(`reconstruct_qry_id` in sql_utils.py is the same f-string composition.) -/
/-- Python `str.split(sep)` for a single-character separator, on `List Char`.
`splitOnChar ':' "a:b"` = `["a", "b"]`, and like Python's `split` it keeps
empty fragments. -/
def splitOnChar (sep : Char) : List Char → List (List Char)
  | [] => [[]]
  | c :: cs =>
    match splitOnChar sep cs with
    | [] => [[]]
    | g :: gs => if c = sep then [] :: g :: gs else (c :: g) :: gs

/-- The decimal digit `d` (`d < 10`) as a character. -/
def digitChar (d : ℕ) : Char := Char.ofNat (48 + d)

/-- The numeric value of a digit character. -/
def charDigitVal (c : Char) : ℕ := c.toNat - 48

/-- Little-endian base-10 digits with explicit fuel (a structurally recursive
twin of `Nat.digits 10`, so that concrete identifiers evaluate). -/
def natDigitsAux : ℕ → ℕ → List ℕ
  | 0, _ => []
  | _ + 1, 0 => []
  | fuel + 1, n + 1 => (n + 1) % 10 :: natDigitsAux fuel ((n + 1) / 10)

/-- Python `str(n)` for a natural number, as `List Char`. -/
def natToChars (n : ℕ) : List Char :=
  if n = 0 then ['0'] else ((natDigitsAux n n).reverse.map digitChar)

/-- Python `str(n)` for an integer, as `List Char`. -/
def intToChars (n : ℤ) : List Char :=
  if n < 0 then '-' :: natToChars n.natAbs else natToChars n.natAbs

/-- Parse a nonempty all-digit character list as a natural number
(the digit-string core of Python `int(...)`). -/
def digitsToNat (l : List Char) : Option ℕ :=
  if l ≠ [] ∧ l.all Char.isDigit then
    some (Nat.ofDigits 10 ((l.map charDigitVal).reverse))
  else none

/-- Python `int(s)`: optional sign followed by digits; anything else raises
`ValueError`, modelled as `none`.  (Python also strips surrounding whitespace
and allows `_` digit separators; those inputs never arise from the f-string
composition modelled here.) -/
def parseIntChars (l : List Char) : Option ℤ :=
  match l with
  | [] => none
  | c :: rest =>
    if c = '-' then (digitsToNat rest).map (fun k => -Int.ofNat k)
    else if c = '+' then (digitsToNat rest).map Int.ofNat
    else (digitsToNat (c :: rest)).map Int.ofNat

/-- The literal `"scan"` fragment of the identifier format. -/
def scanWord : List Char := ['s', 'c', 'a', 'n']

/-- Model of `decompress_qry_id` (= `reconstruct_qry_id`): the f-string
`"{dataset}:{file_name}:scan:{scan_id}"`.  The `pd.isna` guards of the source
return `None` for missing components; the components here are typed values,
so they are never NA. -/
def decompress_qry_id (dataset fileName : List Char) (scanId : ℤ) : List Char :=
  dataset ++ ':' :: (fileName ++ ':' :: (scanWord ++ ':' :: intToChars scanId))

/-- Model of `optimize_qry_id`: split on `':'`, demand exactly 4 parts with `"scan"`
third, and parse the scan id as an integer; otherwise `ValueError`. -/
def optimize_qry_id (qryId : List Char) : Except String (List Char × List Char × ℤ) :=
  let parts := splitOnChar ':' qryId
  if parts.length = 4 ∧ parts.getD 2 [] = scanWord then
    match parseIntChars (parts.getD 3 []) with
    | some n => .ok (parts.getD 0 [], parts.getD 1 [], n)
    | none => .error "invalid literal for int()"
  else .error "Invalid qry_id format"

/-! ## Mirror-plot URL derivation (`sql_utils.py` lines 329–388)

```python
def gen_mirror_plot_url(usi1, usi2):
    if usi1 is None or usi2 is None:
        return None
    base_url = "https://metabolomics-usi.gnps2.org/dashinterface/"
    params = {"usi1": usi1, "usi2": usi2, "cosine": "shifted"}
    if usi2 == "No valid USI":
        params.pop("usi2")
    query_string = urllib.parse.urlencode(params)
    return f"{base_url}?{query_string}"
```
`urllib.parse.urlencode` percent-encodes keys and values with `quote_plus`
(spaces to `'+'`, unreserved `[A-Za-z0-9_.-~]` kept, everything else as
uppercase-hex `%XX` per UTF-8 byte) and joins `key=value` pairs with `'&'`. -/
/-- Uppercase hexadecimal digit. -/
def hexDigit (n : ℕ) : Char := if n < 10 then Char.ofNat (48 + n) else Char.ofNat (55 + n)

/-- Percent (`%XX`) encoding of one byte. -/
def byteHex (b : ℕ) : List Char := ['%', hexDigit (b / 16), hexDigit (b % 16)]

/-- UTF-8 bytes of one character. -/
def utf8Bytes (c : Char) : List ℕ :=
  let n := c.toNat
  if n < 128 then [n]
  else if n < 2048 then [192 + n / 64, 128 + n % 64]
  else if n < 65536 then [224 + n / 4096, 128 + (n / 64) % 64, 128 + n % 64]
  else [240 + n / 262144, 128 + (n / 4096) % 64, 128 + (n / 64) % 64, 128 + n % 64]

/-- Python `urllib.parse.quote_plus` on one character. -/
def quotePlusChar (c : Char) : List Char :=
  if c = ' ' then ['+']
  else if c.isAlphanum ∨ c = '_' ∨ c = '.' ∨ c = '-' ∨ c = '~' then [c]
  else (utf8Bytes c).foldr (fun b acc => byteHex b ++ acc) []

/-- Python `urllib.parse.quote_plus`. -/
def quotePlus (s : String) : String :=
  String.mk (s.toList.foldr (fun c acc => quotePlusChar c ++ acc) [])

/-- Python `urllib.parse.urlencode` on an association list (Python dicts preserve
insertion order). -/
def urlencode (params : List (String × String)) : String :=
  String.intercalate "&" (params.map (fun kv => quotePlus kv.1 ++ "=" ++ quotePlus kv.2))

/-- The fixed base endpoint of the mirror-plot service. -/
def mirrorPlotBase : String := "https://metabolomics-usi.gnps2.org/dashinterface/"

/-- Model of `gen_mirror_plot_url` (sql_utils.py): `None` if either identifier is
`None`; otherwise substitute both identifiers into the fixed endpoint, except
that a sentinel `"No valid USI"` reference identifier is popped from the
parameter dict first. -/
def gen_mirror_plot_url (usi1 usi2 : Option String) : Option String :=
  match usi1, usi2 with
  | some u1, some u2 =>
    let params := [("usi1", u1), ("usi2", u2), ("cosine", "shifted")]
    let params := if u2 = "No valid USI" then params.filter (fun kv => kv.1 ≠ "usi2")
      else params
    some (mirrorPlotBase ++ "?" ++ urlencode params)
  | _, _ => none

/-! ## The two search pipelines (`sql_utils.py` lines 139–232 and 235–318)

A `JoinedRow` is one row of the dataframe returned by the SQL query of
`search_by_inchikey` / `search_by_delta_mass`: a `search_results` row joined
with its reference metadata.  `deltaStored` is the raw fixed-point integer
`sr.delta_mass`; the `SELECT` emits `sr.delta_mass / 100.0` and decodes
`ion_polarity` with `CASE sr.ion_polarity WHEN 1 THEN '+' ELSE '-' END`, both
of which are applied where the pipeline builds its output rows.  Fields the
claims never touch (the `ref_*_db` codes, `ref_2_mono_mass`) are omitted. -/
structure JoinedRow where
  qryDataset : String
  qryFileName : String
  qryScanId : ℤ
  qryMz : ℚ
  ref1Id : Option String
  ref2Id : Option String
  deltaStored : ℤ
  count : ℤ
  ionPolarityRaw : ℤ
  ref1Inchikey : Option String
  ref1Name : Option String
  ref1MonoMass : ℚ
  ref2Inchikey : Option String
  ref2Name : Option String
deriving DecidableEq

/-- One output row of the search pipelines, in the `column_order` layout of
the source (ids and db codes not needed by the claims omitted). -/
structure ResultRow where
  qryId : String
  qryMz : ℚ
  ionPolarity : String
  ref1Id : Option String
  ref1Name : Option String
  ref1MonoMass : ℚ
  ref2Id : Option String
  ref2Name : Option String
  matchType : String
  deltaMass : ℚ
  count : ℤ
  conjugateName : Option String
  conjugateDeltaMass : ℚ
deriving DecidableEq

/-- Python `str(n)` for an integer, as `String`. -/
def intToStr (n : ℤ) : String := String.mk (intToChars n)

/-- Model of `reconstruct_qry_id` (sql_utils.py lines 321–325):
`f"{dataset}:{file_name}:scan:{scan_id}"`. -/
def reconstruct_qry_id (dataset fileName : String) (scanId : ℤ) : String :=
  dataset ++ ":" ++ fileName ++ ":scan:" ++ intToStr scanId

/-- Model of `get_match_type_and_conjugate_info` (sql_utils.py lines 211–220):

```python
ref1_match = row["ref_1_inchikey"] == target_inchikey
ref2_match = row["ref_2_inchikey"] == target_inchikey
if ref1_match:
    return "spec (ref 1)", row["ref_2_name"], row["delta_mass"]
elif ref2_match:
    return "spec (ref 2)", row["ref_1_name"], round(row["ref_1_mono_mass"] - 18.0106, 2)
else:
    raise ValueError("InChIKey not found in either reference")
```
`row["delta_mass"]` is the decoded `deltaStored / 100`.  The `ValueError` is
modelled as `Except.error`. -/
def get_match_type_and_conjugate_info (targetInchikey : String) (r : JoinedRow) :
    Except String (String × Option String × ℚ) :=
  if r.ref1Inchikey = some targetInchikey then
    .ok ("spec (ref 1)", r.ref2Name, (r.deltaStored : ℚ) / 100)
  else if r.ref2Inchikey = some targetInchikey then
    .ok ("spec (ref 2)", r.ref1Name, round2 (r.ref1MonoMass - waterLoss))
  else
    .error "InChIKey not found in either reference"

/-- Assemble one output row from a joined row plus the
match-type/conjugate columns, decoding `delta_mass` and `ion_polarity` as the
`SELECT` clause does. -/
def mkResultRow (r : JoinedRow) (mt : String) (cn : Option String) (cdm : ℚ) : ResultRow where
  qryId := reconstruct_qry_id r.qryDataset r.qryFileName r.qryScanId
  qryMz := r.qryMz
  ionPolarity := if r.ionPolarityRaw = 1 then "+" else "-"
  ref1Id := r.ref1Id
  ref1Name := r.ref1Name
  ref1MonoMass := r.ref1MonoMass
  ref2Id := r.ref2Id
  ref2Name := r.ref2Name
  matchType := mt
  deltaMass := (r.deltaStored : ℚ) / 100
  count := r.count
  conjugateName := cn
  conjugateDeltaMass := cdm

/-- Model of `df.apply(get_match_type_and_conjugate_info, axis=1)`: the classification
runs over every row; a raised `ValueError` aborts the whole search. -/
def classifyRows (target : String) : List JoinedRow → Except String (List ResultRow)
  | [] => .ok []
  | r :: rs =>
    match get_match_type_and_conjugate_info target r with
    | .error e => .error e
    | .ok (mt, cn, cdm) =>
      match classifyRows target rs with
      | .error e => .error e
      | .ok rest => .ok (mkResultRow r mt cn cdm :: rest)

/-- Model of `search_by_inchikey` (sql_utils.py lines 139–232), from the joined rows
returned by its SQL query: filter `count >= min_count`, then classify every
surviving row (reconstructing `qry_id` and appending the match-type /
conjugate columns).  The SQL `ORDER BY sr.count DESC` orders the input list
`df`; it does not change its membership. -/
def search_by_inchikey (df : List JoinedRow) (targetInchikey : String) (minCount : ℤ) :
    Except String (List ResultRow) :=
  classifyRows targetInchikey (df.filter (fun r => decide (minCount ≤ r.count)))

/-- The `ORDER BY ABS(sr.delta_mass - ?) ASC, sr.count DESC` relation of
`search_by_delta_mass`, against the stored target. -/
def deltaOrder (targetStored : ℤ) (a b : JoinedRow) : Prop :=
  (a.deltaStored - targetStored).natAbs < (b.deltaStored - targetStored).natAbs ∨
    ((a.deltaStored - targetStored).natAbs = (b.deltaStored - targetStored).natAbs ∧
      b.count ≤ a.count)

instance (t : ℤ) : DecidableRel (deltaOrder t) := fun a b => by
  unfold deltaOrder
  infer_instance

/-- Model of `search_by_delta_mass` (sql_utils.py lines 235–318):

```python
target_delta_stored = round(target_delta_mass * 100)
tolerance_stored = round(mass_tolerance * 100)
...
WHERE sr.delta_mass BETWEEN ? AND ?
ORDER BY ABS(sr.delta_mass - ?) ASC, sr.count DESC
...
df = df[df["count"] >= min_count]
df["match_type"] = "delta mass"
df["conjugate_name"] = df["ref_1_name"]
df["conjugate_delta_mass"] = df["ref_1_mono_mass"].apply(lambda x: round(x - 18.0106, 2))
```
with `min_delta = target_delta_stored - tolerance_stored` and
`max_delta = target_delta_stored + tolerance_stored` (SQL `BETWEEN` is
inclusive on both ends). -/
def search_by_delta_mass (df : List JoinedRow) (targetDeltaMass : ℚ) (minCount : ℤ)
    (massTolerance : ℚ) : List ResultRow :=
  let targetStored := pythonRound (targetDeltaMass * 100)
  let toleranceStored := pythonRound (massTolerance * 100)
  let minDelta := targetStored - toleranceStored
  let maxDelta := targetStored + toleranceStored
  let sel := df.filter (fun r => decide (minDelta ≤ r.deltaStored ∧ r.deltaStored ≤ maxDelta))
  let sorted := sel.insertionSort (deltaOrder targetStored)
  let counted := sorted.filter (fun r => decide (minCount ≤ r.count))
  counted.map (fun r =>
    mkResultRow r "delta mass" r.ref1Name (round2 (r.ref1MonoMass - waterLoss)))

/-- A joined row matching on the `ref_2` slot: the stored `delta_mass` is
162.03 but `ref_1`'s monoisotopic mass is 180.0634, so the recomputed
conjugate delta mass is `round(180.0634 - 18.0106, 2) = 162.05`. -/
def row₁ : JoinedRow where
  qryDataset := "MSV000090030"
  qryFileName := "run1"
  qryScanId := 4
  qryMz := 3011517 / 10000
  ref1Id := some "5436077"
  ref2Id := some "12345"
  deltaStored := 16203
  count := 5
  ionPolarityRaw := 1
  ref1Inchikey := some "WQZGKKKJIJFFOK"
  ref1Name := some "glucose"
  ref1MonoMass := 1800634 / 10000
  ref2Inchikey := some "OUYCCCASQSFEME"
  ref2Name := some "tyrosol"

/-- The output row the pipeline produces for `row₁` under target
`OUYCCCASQSFEME` (a `ref_2` match). -/
def expected₁ : ResultRow :=
  mkResultRow row₁ "spec (ref 2)" (some "glucose") (16205 / 100)

/-- A joined row matching the query structure on neither reference slot. -/
def rowNeither : JoinedRow where
  qryDataset := "MSV000090030"
  qryFileName := "run1"
  qryScanId := 9
  qryMz := 2011054 / 10000
  ref1Id := some "8"
  ref2Id := none
  deltaStored := 7997
  count := 1
  ionPolarityRaw := 0
  ref1Inchikey := some "AAAABBBBCCCCDD"
  ref1Name := some "other"
  ref1MonoMass := 1200423 / 10000
  ref2Inchikey := none
  ref2Name := none

/-- A stored row two fixed-point units above the target, for exercising the
tolerance window of `search_by_delta_mass`. -/
def rowC2 : JoinedRow where
  qryDataset := "MSV000090031"
  qryFileName := "run2"
  qryScanId := 11
  qryMz := 5550321 / 10000
  ref1Id := some "77"
  ref2Id := none
  deltaStored := 102
  count := 5
  ionPolarityRaw := 1
  ref1Inchikey := some "QQQQWWWWEEEERR"
  ref1Name := some "probe"
  ref1MonoMass := 1190821 / 10000
  ref2Inchikey := none
  ref2Name := none

/-! ## The ETL fixed-point encoding (`sql_files.py` line 212)

```python
df["delta_mass"] = (df["delta_mass"].round(2) * 100).astype(int)
```
run by pandas in float64: `Series.round(2)` computes `rint(x * 100) / 100`,
`* 100` is a float multiply, and `.astype(int)` truncates toward zero.  Each
float64 operation is round-to-nearest-even at the ulp of the result's binade,
modelled by `flAt` with an explicit ulp exponent. -/
/-- Round to the nearest multiple of `2 ^ (-k)`, ties to even: one IEEE-754
float64 rounding step for a result in the binade with ulp `2 ^ (-k)`. -/
def flAt (q : ℚ) (k : ℕ) : ℚ := (pythonRound (q * 2 ^ k) : ℚ) / 2 ^ k

/-- Truncation toward zero, as performed by `.astype(int)`. -/
def truncToInt (q : ℚ) : ℤ := if 0 ≤ q then Rat.floor q else Rat.ceil q

/-- The expression `(round(m, 2) * 100).astype(int)` as executed in float64 on a double `m`:
`k₁` is the ulp exponent of the binade of `m` (and of `rint(m*100)/100`),
`k₂` that of the binade of `m * 100`. -/
def etl_delta_encode_f64 (m : ℚ) (k₁ k₂ : ℕ) : ℤ :=
  let p₁ := flAt (m * 100) k₂
  let rounded2 := flAt ((pythonRound p₁ : ℚ) / 100) k₁
  truncToInt (flAt (rounded2 * 100) k₂)

/-- The encoding the spec states: `encode(m) = round(m * 100)`. -/
def delta_mass_encode (m : ℚ) : ℤ := pythonRound (m * 100)

/-- The decoding used by the query layer: `stored / 100.0`
(`sr.delta_mass / 100.0` in every `SELECT`). -/
def delta_mass_decode (x : ℤ) : ℚ := (x : ℚ) / 100

/-! ## `prepare_delta_mass_plot` (sql_utils.py lines 58–109, identically
utils.py lines 126–177 with display column names)

The function reads three columns of the result frame —
`conjugate_delta_mass`, `ion_polarity`, `count` — groups on
(delta, polarity) summing counts, and folds delta masses that occur in both
polarities into a single synthetic `"both"` row.  Frames are modelled as
lists of the three-column rows; every pandas step used (groupby-sum,
boolean-mask filters, `isin`, concatenation, `sort_values`) constructs a new
frame, so the embedding is a pure function of the input list. -/
structure PlotRow where
  delta : ℚ
  polarity : String
  count : ℤ
deriving DecidableEq

/-- Sum of the `count` column. -/
def sumCounts (l : List PlotRow) : ℤ := (l.map PlotRow.count).sum

/-- Model of `df.groupby(["conjugate_delta_mass", "ion_polarity"], as_index=False)["count"].sum()`:
one row per distinct (delta, polarity) key, carrying the summed count.
(pandas sorts the group keys; key order affects only display order, which the
final `sort_values` step re-imposes anyway.) -/
def groupbyDeltaPolarity (l : List PlotRow) : List PlotRow :=
  ((l.map (fun r => (r.delta, r.polarity))).dedup).map
    (fun k => ⟨k.1, k.2, sumCounts (l.filter (fun r => decide ((r.delta, r.polarity) = k)))⟩)

/-- Model of `common_data.groupby("conjugate_delta_mass", as_index=False)["count"].sum()`
followed by `combined_counts["ion_polarity"] = "both"`. -/
def groupbyDeltaAsBoth (l : List PlotRow) : List PlotRow :=
  ((l.map PlotRow.delta).dedup).map
    (fun d => ⟨d, "both", sumCounts (l.filter (fun r => decide (r.delta = d)))⟩)

/-- The `sort_values("conjugate_delta_mass")` relation. -/
def deltaLe (a b : PlotRow) : Prop := a.delta ≤ b.delta

instance : DecidableRel deltaLe := fun a b => by
  unfold deltaLe
  infer_instance

/-- Model of `pos_data`: the grouped rows with positive polarity. -/
def posData (df : List PlotRow) : List PlotRow :=
  (groupbyDeltaPolarity df).filter (fun r => decide (r.polarity = "+"))

/-- Model of `neg_data`: the grouped rows with negative polarity. -/
def negData (df : List PlotRow) : List PlotRow :=
  (groupbyDeltaPolarity df).filter (fun r => decide (r.polarity = "-"))

/-- Model of `common_deltas = pos_deltas & neg_deltas`: delta masses occurring in both
polarities (as a list; only membership matters, matching the Python set). -/
def commonDeltas (df : List PlotRow) : List ℚ :=
  ((posData df).map PlotRow.delta).filter
    (fun d => decide (d ∈ (negData df).map PlotRow.delta))

/-- Model of `common_data`: all grouped rows whose delta mass is common to both
polarities. -/
def commonData (df : List PlotRow) : List PlotRow :=
  (groupbyDeltaPolarity df).filter (fun r => decide (r.delta ∈ commonDeltas df))

/-- Model of `prepare_delta_mass_plot`: group by (delta, polarity); split by polarity;
if any delta mass occurs in both polarities, keep the one-polarity rows
(`unique_pos`, `unique_neg`) and replace the common ones by single `"both"`
rows whose count sums all groups with that delta; finally sort by delta mass.
When no delta mass is common the grouped frame itself is sorted and
returned. -/
def prepare_delta_mass_plot (dfFiltered : List PlotRow) : List PlotRow :=
  let result :=
    if (commonDeltas dfFiltered).isEmpty then groupbyDeltaPolarity dfFiltered
    else
      (posData dfFiltered).filter (fun r => !decide (r.delta ∈ commonDeltas dfFiltered)) ++
      (negData dfFiltered).filter (fun r => !decide (r.delta ∈ commonDeltas dfFiltered)) ++
      groupbyDeltaAsBoth (commonData dfFiltered)
  result.insertionSort deltaLe

/-- Witness rows for the plot-aggregation claims: one delta mass observed in
both polarities. -/
def dfPlot : List PlotRow :=
  [⟨16205 / 100, "+", 3⟩, ⟨16205 / 100, "-", 4⟩]

example : pythonRound (3/2) = 2 := by decide

example : pythonRound (5/2) = 2 := by decide

example : pythonRound (16/10) = 2 := by decide

example : round2 (181073893/1000000 - waterLoss) = 16306/100 := by decide

/-- C3 (counterexample): The claim states that source library `massbank`
yields the MASSBANK-scheme identifier `"mzspec:MASSBANK::accession:" + accession`.
In the code only `mona` reaches that branch; `massbank` falls through to the
`"No valid USI"` sentinel.  Concretely, accession `MSBNK-IPB-1` from library
`massbank` produces the sentinel, not the MASSBANK-scheme identifier. -/
theorem C3_massbank_counterexample :
    get_ref_usi (some "MSBNK-IPB-1") "massbank" = some "No valid USI" ∧
    some "No valid USI" ≠ some ("mzspec:MASSBANK::accession:" ++ "MSBNK-IPB-1") := by
  constructor
  · rfl
  · decide

/-- C3 (amended): Reference-identifier reconstruction (`_get_ref_usi`):
a null accession yields `None`; source library `gnps` yields
`"mzspec:GNPS:GNPS-LIBRARY:accession:CCMSLIB000" + accession`; source library
`mona` (and only `mona`) yields the MASSBANK-scheme identifier
`"mzspec:MASSBANK::accession:" + accession`; any other source library —
including `massbank` — yields the explicit sentinel `"No valid USI"`; the
function is total, so no exception is raised for any library value. -/
theorem C3_get_ref_usi_characterization :
    (∀ db : String, get_ref_usi none db = none) ∧
    (∀ acc : String,
      get_ref_usi (some acc) "gnps" =
        some ("mzspec:GNPS:GNPS-LIBRARY:accession:CCMSLIB000" ++ acc)) ∧
    (∀ acc : String,
      get_ref_usi (some acc) "mona" =
        some ("mzspec:MASSBANK::accession:" ++ acc)) ∧
    (∀ (acc db : String), db ≠ "gnps" → db ≠ "mona" →
      get_ref_usi (some acc) db = some "No valid USI") := by
  refine ⟨fun _ => rfl, fun _ => rfl, fun _ => rfl, fun acc db h1 h2 => ?_⟩
  simp [get_ref_usi, h1, h2]

/-- Witness for `C3_get_ref_usi_characterization`, discharging its hypotheses
at the concrete library value `nist20`. -/
theorem C3_witness :
    get_ref_usi none "nist20" = none ∧
    get_ref_usi (some "763") "gnps" =
      some ("mzspec:GNPS:GNPS-LIBRARY:accession:CCMSLIB000" ++ "763") ∧
    get_ref_usi (some "KO000001") "mona" =
      some ("mzspec:MASSBANK::accession:" ++ "KO000001") ∧
    get_ref_usi (some "763") "nist20" = some "No valid USI" :=
  ⟨C3_get_ref_usi_characterization.1 "nist20",
   C3_get_ref_usi_characterization.2.1 "763",
   C3_get_ref_usi_characterization.2.2.1 "KO000001",
   C3_get_ref_usi_characterization.2.2.2 "763" "nist20" (by decide) (by decide)⟩

theorem natDigitsAux_eq_digits : ∀ (fuel n : ℕ), n ≤ fuel →
    natDigitsAux fuel n = Nat.digits 10 n
  | 0, n, h => by
    have : n = 0 := Nat.le_zero.mp h
    subst this
    simp [natDigitsAux]
  | fuel + 1, 0, _ => by simp [natDigitsAux]
  | fuel + 1, n + 1, h => by
    rw [natDigitsAux, Nat.digits_def' (by omega : 1 < 10) (Nat.succ_pos n),
      natDigitsAux_eq_digits fuel ((n + 1) / 10) (by omega)]

theorem natToChars_eq (n : ℕ) :
    natToChars n = if n = 0 then ['0'] else ((Nat.digits 10 n).reverse.map digitChar) := by
  unfold natToChars
  rw [natDigitsAux_eq_digits n n le_rfl]

theorem splitOnChar_ne_nil (sep : Char) (l : List Char) : splitOnChar sep l ≠ [] := by
  cases l with
  | nil => simp [splitOnChar]
  | cons c cs =>
    simp only [splitOnChar]
    rcases h : splitOnChar sep cs with _ | ⟨g, gs⟩
    · simp
    · by_cases hc : c = sep <;> simp [hc]

theorem splitOnChar_of_not_mem {sep : Char} {l : List Char} (h : sep ∉ l) :
    splitOnChar sep l = [l] := by
  induction l with
  | nil => rfl
  | cons c cs ih =>
    have hc : c ≠ sep := fun e => h (e ▸ List.mem_cons_self c cs)
    have hcs : sep ∉ cs := fun m => h (List.mem_cons_of_mem c m)
    simp only [splitOnChar, ih hcs]
    simp [hc]

theorem splitOnChar_append {sep : Char} {a : List Char} (b : List Char)
    (h : sep ∉ a) : splitOnChar sep (a ++ sep :: b) = a :: splitOnChar sep b := by
  induction a with
  | nil =>
    simp only [List.nil_append, splitOnChar]
    rcases hb : splitOnChar sep b with _ | ⟨g, gs⟩
    · exact absurd hb (splitOnChar_ne_nil sep b)
    · simp
  | cons c cs ih =>
    have hc : c ≠ sep := fun e => h (e ▸ List.mem_cons_self c cs)
    have hcs : sep ∉ cs := fun m => h (List.mem_cons_of_mem c m)
    show splitOnChar sep (c :: (cs ++ sep :: b)) = (c :: cs) :: splitOnChar sep b
    simp only [splitOnChar]
    rw [ih hcs]
    simp [hc]

theorem digitChar_isDigit {d : ℕ} (h : d < 10) : (digitChar d).isDigit = true := by
  interval_cases d <;> decide

theorem charDigitVal_digitChar {d : ℕ} (h : d < 10) : charDigitVal (digitChar d) = d := by
  interval_cases d <;> decide

theorem digitChar_ne_colon {d : ℕ} (h : d < 10) : digitChar d ≠ ':' := by
  interval_cases d <;> decide

theorem digitChar_ne_minus {d : ℕ} (h : d < 10) : digitChar d ≠ '-' := by
  interval_cases d <;> decide

theorem digitChar_ne_plus {d : ℕ} (h : d < 10) : digitChar d ≠ '+' := by
  interval_cases d <;> decide

theorem mem_natToChars {n : ℕ} {c : Char} (hc : c ∈ natToChars n) :
    ∃ d, d < 10 ∧ c = digitChar d := by
  rw [natToChars_eq] at hc
  by_cases h0 : n = 0
  · simp [h0] at hc
    exact ⟨0, by omega, by simpa using hc⟩
  · simp only [h0, if_false, List.mem_map, List.mem_reverse] at hc
    obtain ⟨d, hd, rfl⟩ := hc
    exact ⟨d, Nat.digits_lt_base (by omega) hd, rfl⟩

theorem natToChars_ne_nil (n : ℕ) : natToChars n ≠ [] := by
  rw [natToChars_eq]
  by_cases h0 : n = 0
  · simp [h0]
  · simp only [h0, if_false]
    simp [Nat.digits_ne_nil_iff_ne_zero.mpr h0]

theorem digitsToNat_natToChars (n : ℕ) : digitsToNat (natToChars n) = some n := by
  by_cases h0 : n = 0
  · subst h0; decide
  · have hall : (natToChars n).all Char.isDigit = true := by
      rw [List.all_eq_true]
      intro c hc
      obtain ⟨d, hd, rfl⟩ := mem_natToChars hc
      exact digitChar_isDigit hd
    unfold digitsToNat
    rw [if_pos ⟨natToChars_ne_nil n, hall⟩]
    congr 1
    have hmap : (natToChars n).map charDigitVal = (Nat.digits 10 n).reverse := by
      rw [natToChars_eq, if_neg h0, List.map_map]
      have : ∀ d ∈ (Nat.digits 10 n).reverse, (charDigitVal ∘ digitChar) d = id d := by
        intro d hd
        simp only [Function.comp_apply, id_eq]
        exact charDigitVal_digitChar (Nat.digits_lt_base (by omega) (List.mem_reverse.mp hd))
      rw [List.map_congr_left this, List.map_id]
    rw [hmap, List.reverse_reverse, Nat.ofDigits_digits]

theorem parseIntChars_intToChars (n : ℤ) : parseIntChars (intToChars n) = some n := by
  by_cases hneg : n < 0
  · unfold intToChars
    rw [if_pos hneg]
    simp [parseIntChars, digitsToNat_natToChars, abs_of_neg hneg]
  · unfold intToChars
    rw [if_neg hneg]
    obtain ⟨c, cs, hcons⟩ := List.exists_cons_of_ne_nil (natToChars_ne_nil n.natAbs)
    have hc : c ∈ natToChars n.natAbs := hcons ▸ List.mem_cons_self c cs
    obtain ⟨d, hd, rfl⟩ := mem_natToChars hc
    rw [hcons]
    simp only [parseIntChars]
    rw [if_neg (digitChar_ne_minus hd), if_neg (digitChar_ne_plus hd), ← hcons,
      digitsToNat_natToChars, Option.map_some']
    simp only [Option.some.injEq, Int.ofNat_eq_natCast]
    omega

theorem colon_not_mem_intToChars (n : ℤ) : ':' ∉ intToChars n := by
  intro hmem
  unfold intToChars at hmem
  by_cases hneg : n < 0
  · rw [if_pos hneg] at hmem
    rcases List.mem_cons.mp hmem with h | h
    · exact absurd h (by decide)
    · obtain ⟨d, hd, he⟩ := mem_natToChars h
      exact digitChar_ne_colon hd he.symm
  · rw [if_neg hneg] at hmem
    obtain ⟨d, hd, he⟩ := mem_natToChars hmem
    exact digitChar_ne_colon hd he.symm

/-- C6 (counterexample): The round-trip fails when the dataset name
contains the separator `':'` : composing `("a:b", 'f', 1)` gives
`"a:b:f:scan:1"`, which splits into 5 parts, so `optimize_qry_id` raises
`ValueError` instead of returning the original triple.  Dataset `"a:b"`,
file `'f'` and scan `1` are of valid types (str, str, int), so the claim's
universal statement is false. -/
theorem C6_colon_counterexample :
    optimize_qry_id (decompress_qry_id ['a', ':', 'b'] ['f'] 1) =
      .error "Invalid qry_id format" ∧
    (Except.error "Invalid qry_id format" :
        Except String (List Char × List Char × ℤ)) ≠
      .ok (['a', ':', 'b'], ['f'], 1) := by
  exact ⟨rfl, by simp⟩

/-- C6 (amended): The identifier round-trip
`optimize_qry_id (decompress_qry_id dataset file scan) = (dataset, file, scan)`
holds for every triple of valid types in which the dataset and file-name
strings do not contain the separator character `':'` (with the scan id an
integer); a component containing `':'` makes the 4-way split fail and
`optimize_qry_id` raise `ValueError`. -/
theorem C6_round_trip (dataset fileName : List Char) (scanId : ℤ)
    (hd : ':' ∉ dataset) (hf : ':' ∉ fileName) :
    optimize_qry_id (decompress_qry_id dataset fileName scanId) =
      .ok (dataset, fileName, scanId) := by
  unfold decompress_qry_id optimize_qry_id
  rw [splitOnChar_append _ hd, splitOnChar_append _ hf,
    splitOnChar_append _ (by decide),
    splitOnChar_of_not_mem (colon_not_mem_intToChars scanId)]
  simp [parseIntChars_intToChars]

/-- Witness for `C6_round_trip` at the concrete triple
`("MSV000012345", "run1.mzML", 1734)` (colon-free components). -/
theorem C6_witness :
    optimize_qry_id (decompress_qry_id
        ['M', 'S', 'V', '0', '1'] ['r', 'u', 'n', '.', 'm', 'z', 'M', 'L'] 1734) =
      .ok (['M', 'S', 'V', '0', '1'], ['r', 'u', 'n', '.', 'm', 'z', 'M', 'L'], 1734) :=
  C6_round_trip ['M', 'S', 'V', '0', '1'] ['r', 'u', 'n', '.', 'm', 'z', 'M', 'L'] 1734
    (by decide) (by decide)

/-- C4 (counterexample): The claim states that for a row whose reference
identifier is the `"No valid USI"` sentinel, the mirror-plot URL field is
`None`/absent.  In the code the sentinel only removes the `usi2` parameter:
`gen_mirror_plot_url` still returns a (single-spectrum) URL, not `None`. -/
theorem C4_sentinel_counterexample :
    gen_mirror_plot_url (some "mzspec:MSV000012345:run.mzML:scan:3")
        (some "No valid USI") =
      some (mirrorPlotBase ++ "?" ++
        urlencode [("usi1", "mzspec:MSV000012345:run.mzML:scan:3"),
          ("cosine", "shifted")]) ∧
    some (mirrorPlotBase ++ "?" ++
        urlencode [("usi1", "mzspec:MSV000012345:run.mzML:scan:3"),
          ("cosine", "shifted")]) ≠ (none : Option String) := by
  exact ⟨rfl, by simp⟩

/-- C4 (amended): A mirror-plot URL is produced exactly when both the
query identifier and the reference identifier are non-`None`: if either
argument is `None` the result is `None`; when the reference identifier is the
`"No valid USI"` sentinel the result is a well-formed URL from which the
`usi2` parameter has been removed (single-spectrum view) — not `None`; and
otherwise both identifiers are substituted into the fixed endpoint. -/
theorem C4_mirror_plot_url_characterization :
    (∀ u : Option String, gen_mirror_plot_url none u = none) ∧
    (∀ u : Option String, gen_mirror_plot_url u none = none) ∧
    (∀ u1 : String,
      gen_mirror_plot_url (some u1) (some "No valid USI") =
        some (mirrorPlotBase ++ "?" ++
          urlencode [("usi1", u1), ("cosine", "shifted")])) ∧
    (∀ u1 u2 : String, u2 ≠ "No valid USI" →
      gen_mirror_plot_url (some u1) (some u2) =
        some (mirrorPlotBase ++ "?" ++
          urlencode [("usi1", u1), ("usi2", u2), ("cosine", "shifted")])) := by
  refine ⟨fun u => rfl, fun u => ?_, fun u1 => rfl, fun u1 u2 h => ?_⟩
  · cases u <;> rfl
  · simp [gen_mirror_plot_url, h]

/-- Witness for `C4_mirror_plot_url_characterization`, discharging its
hypothesis at a concrete non-sentinel reference identifier. -/
theorem C4_witness :
    gen_mirror_plot_url (some "mzspec:A:b:scan:1")
        (some "mzspec:GNPS:GNPS-LIBRARY:accession:CCMSLIB0000001") =
      some (mirrorPlotBase ++ "?" ++
        urlencode [("usi1", "mzspec:A:b:scan:1"),
          ("usi2", "mzspec:GNPS:GNPS-LIBRARY:accession:CCMSLIB0000001"),
          ("cosine", "shifted")]) :=
  C4_mirror_plot_url_characterization.2.2.2 "mzspec:A:b:scan:1"
    "mzspec:GNPS:GNPS-LIBRARY:accession:CCMSLIB0000001" (by decide)

theorem classifyRows_ok_mem {target : String} :
    ∀ {l : List JoinedRow} {rows : List ResultRow},
      classifyRows target l = .ok rows → ∀ r' ∈ rows,
      ∃ r ∈ l, ∃ mt cn cdm,
        get_match_type_and_conjugate_info target r = .ok (mt, cn, cdm) ∧
        r' = mkResultRow r mt cn cdm := by
  intro l
  induction l with
  | nil =>
    intro rows h r' hr'
    simp only [classifyRows, Except.ok.injEq] at h
    subst h
    simp at hr'
  | cons r rs ih =>
    intro rows h r' hr'
    unfold classifyRows at h
    rcases h1 : get_match_type_and_conjugate_info target r with e | ⟨mt, cn, cdm⟩
    · rw [h1] at h
      exact Except.noConfusion h
    · rw [h1] at h
      rcases h2 : classifyRows target rs with e | rest
      · rw [h2] at h
        exact Except.noConfusion h
      · rw [h2] at h
        have h' : Except.ok (ε := String) (mkResultRow r mt cn cdm :: rest) = .ok rows := h
        have h'' := Except.ok.inj h'
        subst h''
        rcases List.mem_cons.mp hr' with h3 | h3
        · exact ⟨r, List.mem_cons_self r rs, mt, cn, cdm, h1, h3⟩
        · obtain ⟨r0, hr0, mt0, cn0, cdm0, hc0, he0⟩ := ih h2 r' h3
          exact ⟨r0, List.mem_cons_of_mem r hr0, mt0, cn0, cdm0, hc0, he0⟩

theorem classifyRows_ok_length {target : String} :
    ∀ {l : List JoinedRow} {rows : List ResultRow},
      classifyRows target l = .ok rows → rows.length = l.length := by
  intro l
  induction l with
  | nil =>
    intro rows h
    simp only [classifyRows, Except.ok.injEq] at h
    subst h
    rfl
  | cons r rs ih =>
    intro rows h
    unfold classifyRows at h
    rcases h1 : get_match_type_and_conjugate_info target r with e | ⟨mt, cn, cdm⟩
    · rw [h1] at h
      exact Except.noConfusion h
    · rw [h1] at h
      rcases h2 : classifyRows target rs with e | rest
      · rw [h2] at h
        exact Except.noConfusion h
      · rw [h2] at h
        have h' : Except.ok (ε := String) (mkResultRow r mt cn cdm :: rest) = .ok rows := h
        have h'' := Except.ok.inj h'
        subst h''
        simp [ih h2]

theorem classifyRows_error_of_mem {target : String} :
    ∀ {l : List JoinedRow} {r : JoinedRow}, r ∈ l →
      r.ref1Inchikey ≠ some target → r.ref2Inchikey ≠ some target →
      ∃ e, classifyRows target l = .error e := by
  intro l
  induction l with
  | nil =>
    intro r hr
    simp at hr
  | cons r0 rs ih =>
    intro r hr h1 h2
    rcases List.mem_cons.mp hr with rfl | hr'
    · refine ⟨"InChIKey not found in either reference", ?_⟩
      unfold classifyRows
      rw [show get_match_type_and_conjugate_info target r =
          .error "InChIKey not found in either reference" by
        simp [get_match_type_and_conjugate_info, h1, h2]]
    · rcases hc : get_match_type_and_conjugate_info target r0 with e | ⟨mt, cn, cdm⟩
      · refine ⟨e, ?_⟩
        unfold classifyRows
        rw [hc]
      · obtain ⟨e, he⟩ := ih hr' h1 h2
        refine ⟨e, ?_⟩
        unfold classifyRows
        rw [hc, he]

/-- C1: In the structure search, for every returned row with
`match_type = "spec (ref 2)"` the reported conjugate delta mass equals
`round(ref_1_mono_mass - 18.0106, 2)` — recomputed from `ref_1`'s
monoisotopic mass — and for every row with `match_type = "spec (ref 1)"` the
conjugate delta mass is the row's (decoded) stored `delta_mass`. -/
theorem C1_asymmetric_conjugate_delta (df : List JoinedRow) (target : String)
    (minCount : ℤ) (rows : List ResultRow)
    (h : search_by_inchikey df target minCount = .ok rows) :
    ∀ r' ∈ rows,
      (r'.matchType = "spec (ref 2)" →
        r'.conjugateDeltaMass = round2 (r'.ref1MonoMass - waterLoss)) ∧
      (r'.matchType = "spec (ref 1)" →
        r'.conjugateDeltaMass = r'.deltaMass) := by
  intro r' hr'
  unfold search_by_inchikey at h
  obtain ⟨r, hrmem, mt, cn, cdm, hc, rfl⟩ := classifyRows_ok_mem h r' hr'
  unfold get_match_type_and_conjugate_info at hc
  by_cases h1 : r.ref1Inchikey = some target
  · rw [if_pos h1] at hc
    have h3 := Except.ok.inj hc
    simp only [Prod.mk.injEq] at h3
    obtain ⟨rfl, rfl, rfl⟩ := h3
    constructor
    · intro hmt
      simp only [mkResultRow] at hmt
      exact absurd hmt (by decide)
    · intro _
      rfl
  · rw [if_neg h1] at hc
    by_cases h2 : r.ref2Inchikey = some target
    · rw [if_pos h2] at hc
      have h3 := Except.ok.inj hc
      simp only [Prod.mk.injEq] at h3
      obtain ⟨rfl, rfl, rfl⟩ := h3
      constructor
      · intro _
        rfl
      · intro hmt
        simp only [mkResultRow] at hmt
        exact absurd hmt (by decide)
    · rw [if_neg h2] at hc
      exact Except.noConfusion hc

/-- Witness for `C1_asymmetric_conjugate_delta` on the one-row database
`[row₁]`: the search succeeds with a `spec (ref 2)` row whose conjugate delta
mass is 162.05 (recomputed), not the stored 162.03. -/
theorem C1_witness :
    search_by_inchikey [row₁] "OUYCCCASQSFEME" 1 = .ok [expected₁] ∧
    (expected₁.matchType = "spec (ref 2)" →
      expected₁.conjugateDeltaMass = round2 (expected₁.ref1MonoMass - waterLoss)) ∧
    (expected₁.matchType = "spec (ref 1)" →
      expected₁.conjugateDeltaMass = expected₁.deltaMass) := by
  have h : search_by_inchikey [row₁] "OUYCCCASQSFEME" 1 = .ok [expected₁] := by rfl
  exact ⟨h, C1_asymmetric_conjugate_delta [row₁] "OUYCCCASQSFEME" 1 [expected₁] h
    expected₁ (List.mem_singleton.mpr rfl)⟩

/-- C7: Minimum-count filter: whatever the database content, no row
returned by `search_by_inchikey` (when it succeeds) or by
`search_by_delta_mass` has `count < min_count`. -/
theorem C7_min_count (df : List JoinedRow) (target : String) (minCount : ℤ)
    (rows : List ResultRow) (targetDeltaMass massTolerance : ℚ) :
    (search_by_inchikey df target minCount = .ok rows →
      ∀ r' ∈ rows, minCount ≤ r'.count) ∧
    (∀ r' ∈ search_by_delta_mass df targetDeltaMass minCount massTolerance,
      minCount ≤ r'.count) := by
  constructor
  · intro h r' hr'
    unfold search_by_inchikey at h
    obtain ⟨r, hrmem, mt, cn, cdm, hc, rfl⟩ := classifyRows_ok_mem h r' hr'
    exact of_decide_eq_true (List.mem_filter.mp hrmem).2
  · intro r' hr'
    unfold search_by_delta_mass at hr'
    simp only [List.mem_map] at hr'
    obtain ⟨r, hrmem, rfl⟩ := hr'
    exact of_decide_eq_true (List.mem_filter.mp hrmem).2

/-- Witness for `C7_min_count` on the one-row database `[row₁]` with
`min_count = 3`: the only row has `count = 5 ≥ 3` in both search paths. -/
theorem C7_witness :
    (∀ r' ∈ [mkResultRow row₁ "spec (ref 2)" (some "glucose") (16205 / 100)],
      (3 : ℤ) ≤ r'.count) ∧
    (∀ r' ∈ search_by_delta_mass [row₁] (16203 / 100) 3 (1 / 100),
      (3 : ℤ) ≤ r'.count) :=
  ⟨(C7_min_count [row₁] "OUYCCCASQSFEME" 3
      [mkResultRow row₁ "spec (ref 2)" (some "glucose") (16205 / 100)]
      (16203 / 100) (1 / 100)).1 (by rfl),
   (C7_min_count [row₁] "OUYCCCASQSFEME" 3
      [mkResultRow row₁ "spec (ref 2)" (some "glucose") (16205 / 100)]
      (16203 / 100) (1 / 100)).2⟩

/-- C8 (counterexample): The claim says a joined row matching neither
reference slot always raises and is never silently dropped.  But the
`count >= min_count` filter runs *before* the match-type classification
(sql_utils.py line 201 vs. line 222): a neither-slot row with `count = 1`
under `min_count = 2` is removed by the count filter, and the search returns
`ok []` — the contract violation is silently dropped, no exception. -/
theorem C8_counterexample :
    search_by_inchikey [rowNeither] "OUYCCCASQSFEME" 2 = .ok [] ∧
    rowNeither.ref1Inchikey ≠ some "OUYCCCASQSFEME" ∧
    rowNeither.ref2Inchikey ≠ some "OUYCCCASQSFEME" :=
  ⟨rfl, by decide, by decide⟩

/-- C8 (amended): A joined row matching neither reference slot that
*survives the `min_count` filter* makes the structure search raise
`ValueError` (an `Except.error`), and a successful search classifies every
count-filtered row — none is silently dropped or tagged with a fallback match
type.  (A neither-slot row removed by the count filter is dropped without any
error, as the filter runs first.) -/
theorem C8_contract_violation_loud (df : List JoinedRow) (target : String)
    (minCount : ℤ) :
    ((∃ r ∈ df, minCount ≤ r.count ∧ r.ref1Inchikey ≠ some target ∧
        r.ref2Inchikey ≠ some target) →
      ∃ e, search_by_inchikey df target minCount = .error e) ∧
    (∀ rows, search_by_inchikey df target minCount = .ok rows →
      rows.length = (df.filter (fun r => decide (minCount ≤ r.count))).length) := by
  constructor
  · rintro ⟨r, hr, hcnt, h1, h2⟩
    unfold search_by_inchikey
    exact classifyRows_error_of_mem
      (List.mem_filter.mpr ⟨hr, decide_eq_true hcnt⟩) h1 h2
  · intro rows h
    unfold search_by_inchikey at h
    exact classifyRows_ok_length h

/-- Witness for `C8_contract_violation_loud`: with `min_count = 1` the
neither-slot row survives the count filter and the search errors out; and the
empty `ok` run of the 2-threshold search classifies exactly the
(zero) count-filtered rows. -/
theorem C8_witness :
    (∃ e, search_by_inchikey [rowNeither] "OUYCCCASQSFEME" 1 = .error e) ∧
    ([] : List ResultRow).length =
      ([rowNeither].filter (fun r => decide ((2 : ℤ) ≤ r.count))).length :=
  ⟨(C8_contract_violation_loud [rowNeither] "OUYCCCASQSFEME" 1).1
      ⟨rowNeither, List.mem_singleton.mpr rfl, by decide, by decide, by decide⟩,
   (C8_contract_violation_loud [rowNeither] "OUYCCCASQSFEME" 2).2 [] (by rfl)⟩

/-- C2 (counterexample): The claim says the tolerance is converted as
`tolerance * 100` *without* rounding.  `search_by_delta_mass`
(sql_utils.py line 248) computes `tolerance_stored = round(mass_tolerance * 100)`:
with target 1.0 and tolerance 0.016, the claimed window is
`[100 - 1.6, 100 + 1.6]`, which excludes the stored value 102, yet the code
rounds the tolerance to 2 and returns the row with stored `delta_mass = 102`.
(The unrounded conversion lives in `search_by_delta_mass_range` of
delta_mass_browser.py, a different function.) -/
theorem C2_tolerance_rounding_counterexample :
    (search_by_delta_mass [rowC2] 1 1 (16 / 1000)).map ResultRow.deltaMass =
      [102 / 100] ∧
    ¬((102 : ℚ) ≤ (pythonRound ((1 : ℚ) * 100) : ℚ) + (16 / 1000) * 100) :=
  ⟨rfl, by decide⟩

/-- C2 (amended): In `search_by_delta_mass` the target is converted as
`round(target_mass * 100)` and the tolerance is *also rounded*:
`tolerance_stored = round(tolerance * 100)`.  Exactly the rows whose stored
integer `delta_mass` `x` satisfies
`target_stored - tolerance_stored ≤ x ≤ target_stored + tolerance_stored`
— both boundaries included — and whose `count` passes the minimum-count
filter are returned (as a permutation, since the code additionally orders by
absolute deviation then count). -/
theorem C2_window_characterization (df : List JoinedRow) (targetDeltaMass : ℚ)
    (minCount : ℤ) (massTolerance : ℚ) :
    List.Perm (search_by_delta_mass df targetDeltaMass minCount massTolerance)
      (((df.filter (fun r =>
            decide (pythonRound (targetDeltaMass * 100) -
                pythonRound (massTolerance * 100) ≤ r.deltaStored ∧
              r.deltaStored ≤ pythonRound (targetDeltaMass * 100) +
                pythonRound (massTolerance * 100)))).filter
          (fun r => decide (minCount ≤ r.count))).map
        (fun r =>
          mkResultRow r "delta mass" r.ref1Name (round2 (r.ref1MonoMass - waterLoss)))) :=
  ((List.perm_insertionSort
      (deltaOrder (pythonRound (targetDeltaMass * 100))) _).filter _).map _

/-- C5: The fixed-point round-trip fails in the code: for the 2-decimal
delta mass `m = 2.01` (float64 value `1131529406376837 / 2^49`, which lies in
`[2, 4)` with ulp `2^-51`; `m * 100` lies in `[128, 256)` with ulp `2^-45`),
the float product `round(m,2) * 100` is `200.99999999999997`, so
`.astype(int)` stores **200**, whereas the claimed encoding
`round(m * 100)` gives **201**; decoding the stored value yields
`2.00 ≠ 2.01`.  The spec's own invariant (`delta_mass` reconstructible as
`delta_mass / 100.0`) is the evident intent, and the truncating `astype`
after an inexact float multiply is the slip. -/
theorem C5_etl_truncation_bug :
    flAt (201 / 100) 51 = 1131529406376837 / 562949953421312 ∧
    (2 ≤ flAt (201 / 100) 51 ∧ flAt (201 / 100) 51 < 4) ∧
    (128 ≤ flAt (flAt (201 / 100) 51 * 100) 45 ∧
      flAt (flAt (201 / 100) 51 * 100) 45 < 256) ∧
    etl_delta_encode_f64 (flAt (201 / 100) 51) 51 45 = 200 ∧
    delta_mass_encode (201 / 100) = 201 ∧
    delta_mass_decode 200 ≠ 201 / 100 :=
  ⟨by decide, ⟨by decide, by decide⟩, ⟨by decide, by decide⟩, by decide, by decide, by decide⟩

theorem sumCounts_append (a b : List PlotRow) :
    sumCounts (a ++ b) = sumCounts a + sumCounts b := by
  unfold sumCounts
  rw [List.map_append, List.sum_append]

theorem sumCounts_perm {a b : List PlotRow} (h : List.Perm a b) :
    sumCounts a = sumCounts b :=
  (h.map PlotRow.count).sum_eq

/-- Splitting a count sum along a boolean mask. -/
theorem sum_map_filter_split {α : Type} (c : α → ℤ) (p : α → Bool) (l : List α) :
    ((l.filter p).map c).sum + ((l.filter (fun a => !p a)).map c).sum
      = (l.map c).sum := by
  induction l with
  | nil => rfl
  | cons x xs ih =>
    cases hp : p x
    · rw [List.filter_cons_of_neg (by simp [hp]),
        List.filter_cons_of_pos (by simp [hp])]
      simp only [List.map_cons, List.sum_cons]
      omega
    · rw [List.filter_cons_of_pos (by simp [hp]),
        List.filter_cons_of_neg (by simp [hp])]
      simp only [List.map_cons, List.sum_cons]
      omega

/-- Summing, over a duplicate-free key list covering a row list, the count
sums of the per-key fibres gives the total count sum: grouping neither drops
nor double-counts a row. -/
theorem sum_over_keys {α κ : Type} [DecidableEq κ] (key : α → κ) (c : α → ℤ) :
    ∀ (keys : List κ), keys.Nodup → ∀ (l : List α), (∀ a ∈ l, key a ∈ keys) →
      (keys.map (fun k => ((l.filter (fun a => decide (key a = k))).map c).sum)).sum
        = (l.map c).sum := by
  intro keys
  induction keys with
  | nil =>
    intro _ l hcov
    have : l = [] := List.eq_nil_iff_forall_not_mem.mpr (fun a ha => by simpa using hcov a ha)
    subst this
    rfl
  | cons k ks ih =>
    intro hnd l hcov
    have hks : ks.Nodup := (List.nodup_cons.mp hnd).2
    have hknot : k ∉ ks := (List.nodup_cons.mp hnd).1
    have hcov' : ∀ a ∈ l.filter (fun a => !decide (key a = k)), key a ∈ ks := by
      intro a ha
      have h1 := (List.mem_filter.mp ha).1
      have h2 : key a ≠ k := by simpa using (List.mem_filter.mp ha).2
      rcases List.mem_cons.mp (hcov a h1) with h | h
      · exact absurd h h2
      · exact h
    have htail : ∀ k' ∈ ks,
        ((l.filter (fun a => decide (key a = k'))).map c).sum
          = (((l.filter (fun a => !decide (key a = k))).filter
              (fun a => decide (key a = k'))).map c).sum := by
      intro k' hk'
      have hk'' : k' ≠ k := fun e => hknot (e ▸ hk')
      congr 1
      rw [List.filter_filter]
      congr 1
      apply List.filter_congr
      intro a _
      by_cases h : key a = k'
      · simp [h, hk'']
      · simp [h]
    simp only [List.map_cons, List.sum_cons]
    rw [List.map_congr_left htail, ih hks _ hcov']
    exact sum_map_filter_split c (fun a => decide (key a = k)) l

/-- The grouped frame has the same total count as the input. -/
theorem sumCounts_groupbyDeltaPolarity (l : List PlotRow) :
    sumCounts (groupbyDeltaPolarity l) = sumCounts l := by
  unfold groupbyDeltaPolarity sumCounts
  rw [List.map_map]
  exact sum_over_keys (fun r => (r.delta, r.polarity)) PlotRow.count _
    (List.nodup_dedup _) l
    (fun a ha => List.mem_dedup.mpr (List.mem_map.mpr ⟨a, ha, rfl⟩))

/-- The `"both"` regrouping has the same total count as its input. -/
theorem sumCounts_groupbyDeltaAsBoth (l : List PlotRow) :
    sumCounts (groupbyDeltaAsBoth l) = sumCounts l := by
  unfold groupbyDeltaAsBoth sumCounts
  rw [List.map_map]
  exact sum_over_keys PlotRow.delta PlotRow.count _
    (List.nodup_dedup _) l
    (fun a ha => List.mem_dedup.mpr (List.mem_map.mpr ⟨a, ha, rfl⟩))

/-- Every grouped row inherits its (delta, polarity) key from some input row. -/
theorem mem_groupbyDeltaPolarity {l : List PlotRow} {g : PlotRow}
    (hg : g ∈ groupbyDeltaPolarity l) :
    ∃ a ∈ l, a.delta = g.delta ∧ a.polarity = g.polarity := by
  unfold groupbyDeltaPolarity at hg
  obtain ⟨k, hk, rfl⟩ := List.mem_map.mp hg
  obtain ⟨a, ha, hka⟩ := List.mem_map.mp (List.mem_dedup.mp hk)
  exact ⟨a, ha, by rw [← hka], by rw [← hka]⟩

/-- Restricting the grouped frame to one delta mass keeps exactly the counts
of the input rows with that delta mass. -/
theorem sumCounts_group_filter_delta (l : List PlotRow) (d : ℚ) :
    sumCounts ((groupbyDeltaPolarity l).filter (fun r => decide (r.delta = d)))
      = sumCounts (l.filter (fun r => decide (r.delta = d))) := by
  unfold groupbyDeltaPolarity sumCounts
  rw [List.filter_map, List.map_map]
  have htail : ∀ k ∈ ((l.map (fun r => (r.delta, r.polarity))).dedup).filter
      (fun k => decide (k.1 = d)),
      ((l.filter (fun a => decide ((a.delta, a.polarity) = k))).map PlotRow.count).sum
        = (((l.filter (fun r => decide (r.delta = d))).filter
            (fun a => decide ((a.delta, a.polarity) = k))).map PlotRow.count).sum := by
    intro k hk
    have hkd : k.1 = d := by simpa using (List.mem_filter.mp hk).2
    congr 1
    rw [List.filter_filter]
    congr 1
    apply List.filter_congr
    intro a _
    by_cases h : (a.delta, a.polarity) = k
    · have h1 : a.delta = d := by rw [show a.delta = k.1 from by rw [← h], hkd]
      simp [h, h1]
    · simp [h]
  have hcov : ∀ a ∈ l.filter (fun r => decide (r.delta = d)),
      (a.delta, a.polarity) ∈ ((l.map (fun r => (r.delta, r.polarity))).dedup).filter
        (fun k => decide (k.1 = d)) := by
    intro a ha
    have h1 := (List.mem_filter.mp ha).1
    have h2 : a.delta = d := by simpa using (List.mem_filter.mp ha).2
    exact List.mem_filter.mpr
      ⟨List.mem_dedup.mpr (List.mem_map.mpr ⟨a, h1, rfl⟩), by simpa using h2⟩
  simp only [Function.comp_def]
  rw [List.map_congr_left htail]
  exact sum_over_keys (fun r => (r.delta, r.polarity)) PlotRow.count _
    (List.Nodup.filter _ (List.nodup_dedup _)) _ hcov

/-- C9: `prepare_delta_mass_plot` is a pure display transform (the
embedding is a function of the input frame; every pandas step it uses builds
a new frame, so the input result set is left unchanged), and it merges the
rows sharing a delta mass across both polarities into a single `"both"`
bucket whose count is the sum of the counts of all input rows with that
delta mass. -/
theorem C9_both_bucket (df : List PlotRow) (d : ℚ)
    (hp : ∃ r ∈ df, r.delta = d ∧ r.polarity = "+")
    (hn : ∃ r ∈ df, r.delta = d ∧ r.polarity = "-") :
    (⟨d, "both", sumCounts (df.filter (fun r => decide (r.delta = d)))⟩ : PlotRow)
      ∈ prepare_delta_mass_plot df := by
  obtain ⟨rp, hrp, hdp, hpp⟩ := hp
  obtain ⟨rn, hrn, hdn, hpn⟩ := hn
  have hkp : ((d, "+") : ℚ × String) ∈ (df.map (fun r => (r.delta, r.polarity))).dedup :=
    List.mem_dedup.mpr (List.mem_map.mpr ⟨rp, hrp, by rw [hdp, hpp]⟩)
  have hkn : ((d, "-") : ℚ × String) ∈ (df.map (fun r => (r.delta, r.polarity))).dedup :=
    List.mem_dedup.mpr (List.mem_map.mpr ⟨rn, hrn, by rw [hdn, hpn]⟩)
  have hgp : (⟨d, "+",
      sumCounts (df.filter (fun r => decide ((r.delta, r.polarity) = (d, "+"))))⟩ : PlotRow)
      ∈ groupbyDeltaPolarity df :=
    List.mem_map.mpr ⟨(d, "+"), hkp, rfl⟩
  have hgn : (⟨d, "-",
      sumCounts (df.filter (fun r => decide ((r.delta, r.polarity) = (d, "-"))))⟩ : PlotRow)
      ∈ groupbyDeltaPolarity df :=
    List.mem_map.mpr ⟨(d, "-"), hkn, rfl⟩
  have hdpos : d ∈ (posData df).map PlotRow.delta :=
    List.mem_map.mpr ⟨_, List.mem_filter.mpr ⟨hgp, rfl⟩, rfl⟩
  have hdneg : d ∈ (negData df).map PlotRow.delta :=
    List.mem_map.mpr ⟨_, List.mem_filter.mpr ⟨hgn, rfl⟩, rfl⟩
  have hdcommon : d ∈ commonDeltas df :=
    List.mem_filter.mpr ⟨hdpos, decide_eq_true hdneg⟩
  have hgc : (⟨d, "+",
      sumCounts (df.filter (fun r => decide ((r.delta, r.polarity) = (d, "+"))))⟩ : PlotRow)
      ∈ commonData df :=
    List.mem_filter.mpr ⟨hgp, decide_eq_true hdcommon⟩
  have hdc : d ∈ (commonData df).map PlotRow.delta := List.mem_map.mpr ⟨_, hgc, rfl⟩
  have hboth : (⟨d, "both",
      sumCounts ((commonData df).filter (fun r => decide (r.delta = d)))⟩ : PlotRow)
      ∈ groupbyDeltaAsBoth (commonData df) :=
    List.mem_map.mpr ⟨d, List.mem_dedup.mpr hdc, rfl⟩
  have hcount : sumCounts ((commonData df).filter (fun r => decide (r.delta = d)))
      = sumCounts (df.filter (fun r => decide (r.delta = d))) := by
    have h1 : (commonData df).filter (fun r => decide (r.delta = d))
        = (groupbyDeltaPolarity df).filter (fun r => decide (r.delta = d)) := by
      unfold commonData
      rw [List.filter_filter]
      apply List.filter_congr
      intro a _
      by_cases h : a.delta = d
      · simp [h, decide_eq_true hdcommon]
      · simp [h]
    rw [h1]
    exact sumCounts_group_filter_delta df d
  have hne : (commonDeltas df).isEmpty = false := by
    cases he : (commonDeltas df).isEmpty
    · rfl
    · rw [List.isEmpty_iff.mp he] at hdcommon
      exact absurd hdcommon (List.not_mem_nil d)
  unfold prepare_delta_mass_plot
  rw [hne]
  apply (List.mem_insertionSort deltaLe).mpr
  simp only [Bool.false_eq_true, if_false, List.mem_append]
  right
  rw [← hcount]
  exact hboth

/-- Witness for `C9_both_bucket`: delta 162.05 occurs with counts 3 (`+`) and
4 (`-`), and the aggregated frame contains the row `(162.05, "both", 7)`. -/
theorem C9_witness :
    (⟨16205 / 100, "both", 7⟩ : PlotRow) ∈ prepare_delta_mass_plot dfPlot :=
  C9_both_bucket dfPlot (16205 / 100)
    ⟨⟨16205 / 100, "+", 3⟩, by decide, by decide, rfl⟩
    ⟨⟨16205 / 100, "-", 4⟩, by decide, by decide, rfl⟩

/-- C10: When every input row's polarity is `'+'` or `'-'`, the
aggregation of `prepare_delta_mass_plot` preserves the total count: the
partition into positive-only, negative-only and combined `"both"` buckets
neither drops nor double-counts an observation. -/
theorem C10_count_sum_preserved (df : List PlotRow)
    (hpol : ∀ r ∈ df, r.polarity = "+" ∨ r.polarity = "-") :
    sumCounts (prepare_delta_mass_plot df) = sumCounts df := by
  have hgpol : ∀ r ∈ groupbyDeltaPolarity df, r.polarity = "+" ∨ r.polarity = "-" := by
    intro r hr
    obtain ⟨a, ha, _, hpA⟩ := mem_groupbyDeltaPolarity hr
    rw [← hpA]
    exact hpol a ha
  unfold prepare_delta_mass_plot
  rw [sumCounts_perm (List.perm_insertionSort deltaLe _)]
  by_cases hc : (commonDeltas df).isEmpty
  · rw [if_pos hc]
    exact sumCounts_groupbyDeltaPolarity df
  · rw [if_neg hc, sumCounts_append, sumCounts_append]
    have e1 : sumCounts ((posData df).filter (fun r => decide (r.delta ∈ commonDeltas df)))
        + sumCounts ((posData df).filter (fun r => !decide (r.delta ∈ commonDeltas df)))
        = sumCounts (posData df) :=
      sum_map_filter_split PlotRow.count _ _
    have e2 : sumCounts ((negData df).filter (fun r => decide (r.delta ∈ commonDeltas df)))
        + sumCounts ((negData df).filter (fun r => !decide (r.delta ∈ commonDeltas df)))
        = sumCounts (negData df) :=
      sum_map_filter_split PlotRow.count _ _
    have e4 : sumCounts (posData df) + sumCounts (negData df)
        = sumCounts (groupbyDeltaPolarity df) := by
      unfold posData negData
      rw [show (groupbyDeltaPolarity df).filter (fun r => decide (r.polarity = "-"))
          = (groupbyDeltaPolarity df).filter (fun r => !decide (r.polarity = "+")) from
        List.filter_congr (fun a ha => by rcases hgpol a ha with h | h <;> simp [h])]
      exact sum_map_filter_split PlotRow.count _ _
    have e5 : sumCounts (groupbyDeltaAsBoth (commonData df)) = sumCounts (commonData df) :=
      sumCounts_groupbyDeltaAsBoth _
    have e3 : sumCounts (commonData df)
        = sumCounts ((posData df).filter (fun r => decide (r.delta ∈ commonDeltas df)))
          + sumCounts ((negData df).filter (fun r => decide (r.delta ∈ commonDeltas df))) := by
      have hsplit := sum_map_filter_split PlotRow.count
        (fun r => decide (r.polarity = "+")) (commonData df)
      have hpos : (commonData df).filter (fun r => decide (r.polarity = "+"))
          = (posData df).filter (fun r => decide (r.delta ∈ commonDeltas df)) := by
        unfold commonData posData
        rw [List.filter_filter, List.filter_filter]
        exact List.filter_congr (fun a _ => Bool.and_comm _ _)
      have hneg : (commonData df).filter (fun r => !decide (r.polarity = "+"))
          = (negData df).filter (fun r => decide (r.delta ∈ commonDeltas df)) := by
        unfold commonData negData
        rw [List.filter_filter, List.filter_filter]
        apply List.filter_congr
        intro a ha
        rcases hgpol a ha with h | h <;> simp [h]
      rw [hpos, hneg] at hsplit
      unfold sumCounts
      omega
    have e6 : sumCounts (groupbyDeltaPolarity df) = sumCounts df :=
      sumCounts_groupbyDeltaPolarity df
    omega

/-- Witness for `C10_count_sum_preserved` on `dfPlot`: total count 7 before
and after aggregation. -/
theorem C10_witness :
    sumCounts (prepare_delta_mass_plot dfPlot) = sumCounts dfPlot ∧
    sumCounts dfPlot = 7 :=
  ⟨C10_count_sum_preserved dfPlot (by decide), by decide⟩

end ConjMet
